import Mathlib

/-!
Verification of the `github:actions:dispatch` scaffolder action
(`createGithubActionsDispatchAction` handler).

The handler is shallowly embedded: every external effect (environment
variables, the Octokit REST calls, the unzipper archive reader, `JSON.parse`)
is supplied by an `Env` oracle, and the handler returns the list of observable
events (network calls, sleeps, log lines) together with its result.
Rejected promises / thrown errors are modelled with `Except`.
-/

namespace Dispatch

/-- A JSON value, as produced by `JSON.parse`. -/
inductive Json where
  | null : Json
  | bool (b : Bool) : Json
  | num (n : Int) : Json
  | str (s : String) : Json
  | arr (xs : List Json) : Json
  | obj (fields : List (String × Json)) : Json
  deriving Repr

/-- JavaScript truthiness of a JSON value (used by `if (outputJson)`). -/
def Json.jsTruthy : Json → Bool
  | .null => false
  | .bool b => b
  | .num n => n != 0
  | .str s => s != ""
  | .arr _ => true
  | .obj _ => true

/-- JS `String.prototype.endsWith`, modelled on the character list
(`file.path.endsWith('.json')` in the entry scan). -/
def strEndsWith (s suffix : String) : Bool :=
  suffix.data.isSuffixOf s.data

/-- JavaScript truthiness of a `string | undefined` value
(used by `if (!token)`): `undefined` and the empty string are falsy. -/
def strFalsy : Option String → Bool
  | none => true
  | some s => s == ""

/-- A workflow run as returned by the runs API.  `created_at` is the
numeric timestamp `+new Date(run.created_at)`; `head_branch` may be null. -/
structure WorkflowRun where
  id : Nat
  head_branch : Option String
  created_at : Nat
  status : String
  conclusion : Option String
  deriving Repr, DecidableEq

/-- An artifact descriptor from `listWorkflowRunArtifacts`. -/
structure Artifact where
  id : Nat
  name : String
  deriving Repr, DecidableEq

/-- An entry of the downloaded ZIP archive, as exposed by `unzipper`:
a path and lazily-read content (`file.buffer()`), which may fail. -/
structure ZipEntry where
  path : String
  buffer : Except String String
  deriving Repr

/-- The input schema of the action (after zod defaulting:
`waitForCompletion` defaults to `false`). -/
structure Input where
  owner : String
  repo : String
  workflowId : String ⊕ Nat
  branchOrTagName : String
  workflowInputs : Option (List (String × String))
  token : Option String
  waitForCompletion : Bool
  outputArtifactName : Option String

/-- The external world: `process.env`, the Octokit REST endpoints
(indexed by attempt where the handler re-issues the same call over time),
the archive reader and the JSON parser.  `listRuns i` is the full
server-side result for discovery attempt `i`; the page actually delivered
is cut to the requested `per_page`. -/
structure Env where
  githubToken : Option String
  ghToken : Option String
  dispatch : Except String Unit
  listRuns : Nat → Except String (List WorkflowRun)
  getRun : Nat → Nat → Except String WorkflowRun
  listArtifacts : Except String (List Artifact)
  downloadArtifact : Nat → Except String String
  openZip : String → Except String (List ZipEntry)
  parseJson : String → Except String Json

/-- Observable events of one handler invocation, in order. -/
inductive Event where
  | dispatchCall (token : String) : Event
  | listRunsCall (per_page : Nat) : Event
  | getRunCall (runId : Nat) : Event
  | listArtifactsCall : Event
  | downloadArtifactCall (artifactId : Nat) : Event
  | sleep (ms : Nat) : Event
  | logInfo (msg : String) : Event
  | logWarn (msg : String) : Event
  deriving Repr, DecidableEq

/-- Errors surfaced by the handler.  The spec names the first three
`MissingCredentialError`, `RunNotFoundError` and `DispatchTimeoutError`;
`api` is a rejected promise of an Octokit call propagating uncaught. -/
inductive DispatchError where
  | missingCredential : DispatchError
  | runNotFound : DispatchError
  | dispatchTimeout : DispatchError
  | api (e : String) : DispatchError
  deriving Repr, DecidableEq

/-- The two `ctx.output` slots the handler may set. -/
structure DispatchOutput where
  conclusion : Option String
  outputs : Option Json
  deriving Repr

/-- `providedToken ?? process.env.GITHUB_TOKEN ?? process.env.GH_TOKEN` —
nullish coalescing: the first value that is not `undefined` wins, even if
it is the empty string. -/
def resolveToken (provided githubToken ghToken : Option String) : Option String :=
  match provided with
  | some t => some t
  | none =>
    match githubToken with
    | some t => some t
    | none => ghToken

/-- One discovery attempt's selection (lines 106–111): keep the runs whose
`head_branch` strictly equals the requested ref, sort by descending
`created_at` (JS `sort` with comparator `+new Date(b) - +new Date(a)`,
stable), take element `[0]`. -/
def selectRun (branch : String) (page : List WorkflowRun) : Option WorkflowRun :=
  ((page.filter fun run => run.head_branch == some branch).mergeSort
    fun a b => b.created_at ≤ a.created_at).head?

/-- The run-discovery loop (lines 96–115): up to `fuel` further attempts,
`i` is the index of the next attempt.  Returns `none` when the budget is
exhausted without a match; a rejected `listWorkflowRuns` call propagates. -/
def discoverLoop (env : Env) (branch : String) :
    Nat → Nat → List Event × Except DispatchError (Option WorkflowRun)
  | 0, _ => ([], .ok none)
  | fuel + 1, i =>
    match env.listRuns i with
    | .error e => ([.listRunsCall 5], .error (.api e))
    | .ok runs =>
      match selectRun branch (runs.take 5) with
      | some run => ([.listRunsCall 5], .ok (some run))
      | none =>
        let (tr, res) := discoverLoop env branch fuel (i + 1)
        (.listRunsCall 5 ::
          .logInfo "Workflow run not found yet, retrying in 5 seconds..." ::
          .sleep 5000 :: tr, res)

/-- The completion-polling loop (lines 131–148): up to `fuel` further
`getWorkflowRun` calls on `runId`; attempt index `a`.  Returns the run data
once `status === 'completed'`, `none` when the budget is exhausted. -/
def pollLoop (env : Env) (runId : Nat) :
    Nat → Nat → List Event × Except DispatchError (Option WorkflowRun)
  | 0, _ => ([], .ok none)
  | fuel + 1, a =>
    match env.getRun runId a with
    | .error e => ([.getRunCall runId], .error (.api e))
    | .ok run =>
      if run.status == "completed" then
        ([.getRunCall runId], .ok (some run))
      else
        let (tr, res) := pollLoop env runId fuel (a + 1)
        (.getRunCall runId ::
          .logInfo ("Attempt " ++ toString (a + 1) ++ ": Workflow status = "
            ++ run.status ++ ", waiting 5s...") ::
          .sleep 5000 :: tr, res)

/-- The entry scan inside the `try` block (lines 192–198): the first entry
whose path ends in `.json` is read and parsed; a read or parse failure
throws (to be caught by the surrounding `catch`); when no entry path ends
in `.json`, `outputJson` stays `undefined`. -/
def scanEntries (env : Env) : List ZipEntry → Except String (Option Json)
  | [] => .ok none
  | f :: rest =>
    if strEndsWith f.path ".json" then
      match f.buffer with
      | .error e => .error e
      | .ok content =>
        match env.parseJson content with
        | .error e => .error e
        | .ok j => .ok (some j)
    else scanEntries env rest

/-- The whole `try` block body up to the truthiness test (lines 187–198):
open the archive from the downloaded buffer, then scan its entries. -/
def tryExtract (env : Env) (zipData : String) : Except String (Option Json) :=
  match env.openZip zipData with
  | .error e => .error e
  | .ok files => scanEntries env files

/-- Artifact extraction (lines 160–208), entered with the conclusion
already recorded.  Only the archive-open / entry-scan / parse part is
inside `try`; `listWorkflowRunArtifacts` and `downloadArtifact` rejections
propagate. -/
def artifactPhase (env : Env) (artName : String) (conclusion : Option String)
    (runId : Nat) : List Event × Except DispatchError DispatchOutput :=
  let tr0 := [Event.logInfo ("Fetching output artifact '" ++ artName
    ++ "' for run " ++ toString runId), Event.listArtifactsCall]
  match env.listArtifacts with
  | .error e => (tr0, .error (.api e))
  | .ok arts =>
    match arts.find? fun a => a.name == artName with
    | none =>
      (tr0 ++ [.logWarn ("Artifact '" ++ artName ++ "' not found")],
        .ok ⟨conclusion, none⟩)
    | some artifact =>
      let tr1 := tr0 ++ [Event.downloadArtifactCall artifact.id]
      match env.downloadArtifact artifact.id with
      | .error e => (tr1, .error (.api e))
      | .ok zipData =>
        match tryExtract env zipData with
        | .error e =>
          (tr1 ++ [.logWarn ("Failed to extract or parse output artifact: " ++ e)],
            .ok ⟨conclusion, none⟩)
        | .ok outputJson =>
          match outputJson with
          | some j =>
            if j.jsTruthy then
              (tr1 ++ [.logInfo "Output artifact JSON parsed successfully"],
                .ok ⟨conclusion, some j⟩)
            else
              (tr1 ++ [.logWarn "No JSON file found inside output artifact ZIP"],
                .ok ⟨conclusion, none⟩)
          | none =>
            (tr1 ++ [.logWarn "No JSON file found inside output artifact ZIP"],
              .ok ⟨conclusion, none⟩)

/-- The action handler (lines 52–209). -/
def handler (env : Env) (input : Input) :
    List Event × Except DispatchError DispatchOutput :=
  let token := resolveToken input.token env.githubToken env.ghToken
  if strFalsy token then ([], .error .missingCredential)
  else
    let t := token.getD ""
    let tr0 := [Event.logInfo "Dispatching GitHub workflow", Event.dispatchCall t]
    match env.dispatch with
    | .error e => (tr0, .error (.api e))
    | .ok _ =>
      let tr1 := tr0 ++ [Event.logInfo "Workflow dispatched successfully"]
      if !input.waitForCompletion then
        (tr1 ++ [.logInfo "Not waiting for completion (waitForCompletion is false)"],
          .ok ⟨none, none⟩)
      else
        let tr2 := tr1 ++ [Event.logInfo "Waiting for workflow run to be created..."]
        let (dtr, dres) := discoverLoop env input.branchOrTagName 12 0
        match dres with
        | .error e => (tr2 ++ dtr, .error e)
        | .ok none => (tr2 ++ dtr, .error .runNotFound)
        | .ok (some workflowRun) =>
          let tr3 := tr2 ++ dtr ++
            [Event.logInfo ("Found workflow run: " ++ toString workflowRun.id),
             Event.logInfo "Polling workflow run for completion..."]
          let (ptr, pres) := pollLoop env workflowRun.id 60 0
          match pres with
          | .error e => (tr3 ++ ptr, .error e)
          | .ok none => (tr3 ++ ptr, .error .dispatchTimeout)
          | .ok (some runData) =>
            let tr4 := tr3 ++ ptr ++
              [Event.logInfo ("Workflow run completed with conclusion: "
                ++ toString runData.conclusion)]
            match input.outputArtifactName with
            | none => (tr4, .ok ⟨runData.conclusion, none⟩)
            | some artName =>
              let (atr, ares) := artifactPhase env artName runData.conclusion
                workflowRun.id
              (tr4 ++ atr, ares)

/-- Count the network calls of each kind in a trace. -/
def isDispatchCall : Event → Bool
  | .dispatchCall _ => true
  | _ => false

def isListRunsCall : Event → Bool
  | .listRunsCall _ => true
  | _ => false

def isGetRunCall : Event → Bool
  | .getRunCall _ => true
  | _ => false

def isListArtifactsCall : Event → Bool
  | .listArtifactsCall => true
  | _ => false

def isDownloadCall : Event → Bool
  | .downloadArtifactCall _ => true
  | _ => false

def isSleep : Event → Bool
  | .sleep _ => true
  | _ => false

def isNetworkCall (e : Event) : Bool :=
  isDispatchCall e || isListRunsCall e || isGetRunCall e
    || isListArtifactsCall e || isDownloadCall e

def isWarn : Event → Bool
  | .logWarn _ => true
  | _ => false

/-! ### Concrete environments and inputs for witnesses -/

/-- A completed run used by concrete test environments. -/
def run0 : WorkflowRun :=
  ⟨700, some "main", 1000, "completed", some "success"⟩

/-- A base environment; individual witnesses override fields. -/
def envBase : Env where
  githubToken := none
  ghToken := none
  dispatch := .ok ()
  listRuns := fun _ => .ok [run0]
  getRun := fun _ _ => .ok run0
  listArtifacts := .ok []
  downloadArtifact := fun _ => .error "download refused"
  openZip := fun _ => .ok []
  parseJson := fun _ => .error "invalid JSON"

/-- A base input; individual witnesses override fields. -/
def inputBase : Input where
  owner := "acme"
  repo := "widgets"
  workflowId := Sum.inl "ci.yml"
  branchOrTagName := "main"
  workflowInputs := none
  token := none
  waitForCompletion := false
  outputArtifactName := none

/-! ### Loop lemmas -/

/-- If every attempt in the window finds no matching run in its page, the
discovery loop exhausts its budget: one list-runs call (with `per_page = 5`)
and one 5000 ms sleep per attempt, no other network calls. -/
theorem discoverLoop_exhaust (env : Env) (b : String) :
    ∀ fuel i,
    (∀ j, i ≤ j → j < i + fuel →
      ∃ runs, env.listRuns j = .ok runs ∧ selectRun b (runs.take 5) = none) →
    ∃ tr, discoverLoop env b fuel i = (tr, .ok none) ∧
      tr.countP isListRunsCall = fuel ∧
      tr.countP isGetRunCall = 0 ∧
      tr.countP isListArtifactsCall = 0 ∧
      tr.countP isDownloadCall = 0 ∧
      tr.countP isSleep = fuel ∧
      (∀ n, Event.listRunsCall n ∈ tr → n = 5) ∧
      (∀ ms, Event.sleep ms ∈ tr → ms = 5000) := by
  intro fuel
  induction fuel with
  | zero =>
    intro i _
    exact ⟨[], rfl, by simp⟩
  | succ fuel ih =>
    intro i h
    obtain ⟨runs, hok, hsel⟩ := h i (le_refl i) (by omega)
    obtain ⟨tr, htr, h1, h2, h3, h4, h5, h6, h7⟩ :=
      ih (i + 1) (fun j hj1 hj2 => h j (by omega) (by omega))
    refine ⟨Event.listRunsCall 5 ::
      Event.logInfo "Workflow run not found yet, retrying in 5 seconds..." ::
      Event.sleep 5000 :: tr, ?_, ?_⟩
    · simp only [discoverLoop, hok, hsel, htr]
    · simp only [List.countP_cons, List.mem_cons]
      refine ⟨by simp [isListRunsCall, h1], by simp [isGetRunCall, h2],
        by simp [isListArtifactsCall, h3], by simp [isDownloadCall, h4],
        by simp [isSleep, h5], ?_, ?_⟩
      · rintro n (h | h | h | h)
        · cases h; rfl
        · cases h
        · cases h
        · exact h6 n h
      · rintro ms (h | h | h | h)
        · cases h
        · cases h
        · cases h; rfl
        · exact h7 ms h

/-- If the first `k` attempts in the window find nothing and attempt `i + k`
selects `run`, the discovery loop stops there with `k + 1` list-runs calls. -/
theorem discoverLoop_found (env : Env) (b : String) :
    ∀ fuel i k run, k < fuel →
    (∀ j, i ≤ j → j < i + k →
      ∃ runs, env.listRuns j = .ok runs ∧ selectRun b (runs.take 5) = none) →
    (∃ runs, env.listRuns (i + k) = .ok runs ∧
        selectRun b (runs.take 5) = some run) →
    ∃ tr, discoverLoop env b fuel i = (tr, .ok (some run)) ∧
      tr.countP isListRunsCall = k + 1 ∧
      tr.countP isGetRunCall = 0 ∧
      tr.countP isSleep = k := by
  intro fuel
  induction fuel with
  | zero => intro i k run hk; omega
  | succ fuel ih =>
    intro i k run hk hmiss hhit
    cases k with
    | zero =>
      obtain ⟨runs, hok, hsel⟩ := hhit
      refine ⟨[.listRunsCall 5], ?_, by simp [isListRunsCall, isGetRunCall, isSleep]⟩
      rw [show i + 0 = i from rfl] at hok
      simp only [discoverLoop, hok, hsel]
    | succ k =>
      obtain ⟨runs, hok, hsel⟩ := hmiss i (le_refl i) (by omega)
      obtain ⟨tr, htr, h1, h2, h3⟩ :=
        ih (i + 1) k run (by omega)
          (fun j hj1 hj2 => hmiss j (by omega) (by omega))
          (by rw [show i + 1 + k = i + (k + 1) from by omega]; exact hhit)
      refine ⟨Event.listRunsCall 5 ::
        Event.logInfo "Workflow run not found yet, retrying in 5 seconds..." ::
        Event.sleep 5000 :: tr, ?_, ?_⟩
      · simp only [discoverLoop, hok, hsel, htr]
      · simp only [List.countP_cons]
        refine ⟨by simp [isListRunsCall, h1], by simp [isGetRunCall, h2],
          by simp [isSleep, h3]⟩

/-- If every attempt in the window reports a not-completed status, the
completion poll exhausts its budget: one get-run call and one 5000 ms sleep
per attempt. -/
theorem pollLoop_exhaust (env : Env) (runId : Nat) :
    ∀ fuel a,
    (∀ j, a ≤ j → j < a + fuel →
      ∃ r, env.getRun runId j = .ok r ∧ r.status ≠ "completed") →
    ∃ tr, pollLoop env runId fuel a = (tr, .ok none) ∧
      tr.countP isGetRunCall = fuel ∧
      tr.countP isListRunsCall = 0 ∧
      tr.countP isSleep = fuel ∧
      (∀ ms, Event.sleep ms ∈ tr → ms = 5000) := by
  intro fuel
  induction fuel with
  | zero =>
    intro a _
    exact ⟨[], rfl, by simp⟩
  | succ fuel ih =>
    intro a h
    obtain ⟨r, hok, hst⟩ := h a (le_refl a) (by omega)
    obtain ⟨tr, htr, h1, h2, h3, h4⟩ :=
      ih (a + 1) (fun j hj1 hj2 => h j (by omega) (by omega))
    have hst' : (r.status == "completed") = false := by
      simpa using hst
    refine ⟨Event.getRunCall runId ::
      Event.logInfo ("Attempt " ++ toString (a + 1) ++ ": Workflow status = "
        ++ r.status ++ ", waiting 5s...") ::
      Event.sleep 5000 :: tr, ?_, ?_⟩
    · simp only [pollLoop, hok, hst', Bool.false_eq_true, if_false, htr]
    · simp only [List.countP_cons, List.mem_cons]
      refine ⟨by simp [isGetRunCall, h1], by simp [isListRunsCall, h2],
        by simp [isSleep, h3], ?_⟩
      rintro ms (h | h | h | h)
      · cases h
      · cases h
      · cases h; rfl
      · exact h4 ms h

/-- If the first `k` polls in the window report not-completed and poll
`a + k` reports completed with run data `r`, the poll loop stops there:
`k + 1` get-run calls and `k` sleeps, nothing after the completed poll. -/
theorem pollLoop_completes (env : Env) (runId : Nat) :
    ∀ fuel a k r, k < fuel →
    (∀ j, a ≤ j → j < a + k →
      ∃ x, env.getRun runId j = .ok x ∧ x.status ≠ "completed") →
    env.getRun runId (a + k) = .ok r → r.status = "completed" →
    ∃ tr, pollLoop env runId fuel a = (tr, .ok (some r)) ∧
      tr.countP isGetRunCall = k + 1 ∧
      tr.countP isSleep = k ∧
      (∀ ms, Event.sleep ms ∈ tr → ms = 5000) := by
  intro fuel
  induction fuel with
  | zero => intro a k r hk; omega
  | succ fuel ih =>
    intro a k r hk hmiss hok hst
    cases k with
    | zero =>
      refine ⟨[.getRunCall runId], ?_, by simp [isGetRunCall], by simp [isSleep],
        by intro ms h; simp at h⟩
      rw [show a + 0 = a from rfl] at hok
      simp only [pollLoop, hok, hst]
      simp
    | succ k =>
      obtain ⟨x, hxok, hxst⟩ := hmiss a (le_refl a) (by omega)
      obtain ⟨tr, htr, h1, h2, h3⟩ :=
        ih (a + 1) k r (by omega)
          (fun j hj1 hj2 => hmiss j (by omega) (by omega))
          (by rw [show a + 1 + k = a + (k + 1) from by omega]; exact hok) hst
      have hxst' : (x.status == "completed") = false := by simpa using hxst
      refine ⟨Event.getRunCall runId ::
        Event.logInfo ("Attempt " ++ toString (a + 1) ++ ": Workflow status = "
          ++ x.status ++ ", waiting 5s...") ::
        Event.sleep 5000 :: tr, ?_, ?_⟩
      · simp only [pollLoop, hxok, hxst', Bool.false_eq_true, if_false, htr]
      · simp only [List.countP_cons, List.mem_cons]
        refine ⟨by simp [isGetRunCall, h1], by simp [isSleep, h2], ?_⟩
        rintro ms (h | h | h | h)
        · cases h
        · cases h
        · cases h; rfl
        · exact h3 ms h

/-! ### Selection lemmas -/

/-- If no run of the page has the requested head ref, no run is selected. -/
theorem selectRun_eq_none (b : String) (page : List WorkflowRun)
    (h : ∀ r ∈ page, r.head_branch ≠ some b) : selectRun b page = none := by
  unfold selectRun
  have hf : page.filter (fun run => run.head_branch == some b) = [] := by
    rw [List.filter_eq_nil_iff]
    intro r hr
    simpa using h r hr
  rw [hf]
  simp

/-- A selected run belongs to the page, has the requested head ref, and has
the greatest creation timestamp among the runs of the page with that head
ref (lines 106–111: stable sort by descending `created_at`, element `[0]`). -/
theorem selectRun_spec (b : String) (page : List WorkflowRun)
    (run : WorkflowRun) (h : selectRun b page = some run) :
    run ∈ page ∧ run.head_branch = some b ∧
      ∀ x ∈ page, x.head_branch = some b → x.created_at ≤ run.created_at := by
  unfold selectRun at h
  set cands := page.filter (fun r => r.head_branch == some b) with hm
  set le : WorkflowRun → WorkflowRun → Bool :=
    fun a c => decide (c.created_at ≤ a.created_at) with hle
  have hsorted : (cands.mergeSort le).Pairwise (le · ·) :=
    @List.sorted_mergeSort _ le
      (by intro a c d h1 h2; simp only [hle, decide_eq_true_eq] at *; omega)
      (by intro a c; simp only [hle]; rcases Nat.le_total c.created_at a.created_at with h | h <;> simp [h])
      cands
  rcases heq : cands.mergeSort le with _ | ⟨r0, rest⟩
  · rw [heq] at h; cases h
  · rw [heq] at h
    simp only [List.head?] at h
    cases h
    rw [heq] at hsorted
    have hmem : run ∈ cands := by
      have hms : run ∈ cands.mergeSort le := by
        rw [heq]; exact List.mem_cons_self _ _
      exact List.mem_mergeSort.mp hms
    have hrun : run ∈ page ∧ run.head_branch = some b := by
      have := List.mem_filter.mp hmem
      exact ⟨this.1, by simpa using this.2⟩
    refine ⟨hrun.1, hrun.2, ?_⟩
    intro x hx hxb
    have hxm : x ∈ cands := by
      rw [hm, List.mem_filter]
      exact ⟨hx, by simp [hxb]⟩
    have hxs : x ∈ run :: rest := by
      rw [← heq, List.mem_mergeSort]; exact hxm
    rcases List.mem_cons.mp hxs with h | h
    · subst h; exact le_refl _
    · have := (List.pairwise_cons.mp hsorted).1 x h
      simpa [hle] using this

/-- If some run of the page has the requested head ref, a run is selected. -/
theorem selectRun_isSome (b : String) (page : List WorkflowRun)
    (r : WorkflowRun) (hr : r ∈ page) (hb : r.head_branch = some b) :
    ∃ run, selectRun b page = some run := by
  unfold selectRun
  have hmem : r ∈ page.filter (fun x => x.head_branch == some b) :=
    List.mem_filter.mpr ⟨hr, by simp [hb]⟩
  rcases heq : (page.filter (fun x => x.head_branch == some b)).mergeSort
      (fun a c => decide (c.created_at ≤ a.created_at)) with _ | ⟨r0, rest⟩
  · exfalso
    have : r ∈ ([] : List WorkflowRun) := by
      rw [← heq, List.mem_mergeSort]; exact hmem
    cases this
  · exact ⟨r0, by rw [heq]; rfl⟩

/-- The discovery loop never emits get-run calls, artifact calls or
downloads, whatever the environment answers. -/
theorem discoverLoop_fst_counts (env : Env) (b : String) :
    ∀ fuel i,
    ((discoverLoop env b fuel i).1).countP isGetRunCall = 0 ∧
    ((discoverLoop env b fuel i).1).countP isListArtifactsCall = 0 ∧
    ((discoverLoop env b fuel i).1).countP isDownloadCall = 0 := by
  intro fuel
  induction fuel with
  | zero => intro i; simp [discoverLoop]
  | succ fuel ih =>
    intro i
    obtain ⟨h1, h2, h3⟩ := ih (i + 1)
    simp only [discoverLoop]
    rcases hr : env.listRuns i with e | runs
    · simp [isGetRunCall, isListArtifactsCall, isDownloadCall]
    · rcases hs : selectRun b (runs.take 5) with _ | run
      · simp only [hs, List.countP_cons]
        refine ⟨?_, ?_, ?_⟩ <;>
          simp [isGetRunCall, isListArtifactsCall, isDownloadCall, h1, h2, h3]
      · simp [hs, isGetRunCall, isListArtifactsCall, isDownloadCall]

/-- The artifact phase never emits dispatch, list-runs or get-run calls,
nor sleeps, whatever the environment answers. -/
theorem artifactPhase_fst_counts (env : Env) (artName : String)
    (conc : Option String) (runId : Nat) :
    ((artifactPhase env artName conc runId).1).countP isGetRunCall = 0 ∧
    ((artifactPhase env artName conc runId).1).countP isListRunsCall = 0 ∧
    ((artifactPhase env artName conc runId).1).countP isSleep = 0 := by
  simp only [artifactPhase]
  repeat' split
  all_goals simp [List.countP_cons, List.countP_append,
    isGetRunCall, isListRunsCall, isSleep]

/-! ### C2: missing credential fails fast -/

/-- C2: with no explicit token and no environment-sourced credential
(each variable absent or empty), the handler fails with
`MissingCredentialError` and the trace is empty, so no network call
(dispatch-trigger, list-runs, get-run, list-artifacts, download-artifact)
was made. -/
theorem c2_missing_credential_fails_before_network (env : Env) (input : Input)
    (htok : input.token = none)
    (hg1 : env.githubToken = none ∨ env.githubToken = some "")
    (hg2 : env.ghToken = none ∨ env.ghToken = some "") :
    handler env input = ([], .error .missingCredential) := by
  rcases hg1 with h1 | h1 <;> rcases hg2 with h2 | h2 <;>
    simp [handler, resolveToken, strFalsy, htok, h1, h2]

/-- Witness for C2 at a concrete environment and input. -/
theorem c2_missing_credential_fails_before_network_witness :
    handler envBase inputBase = ([], .error .missingCredential) :=
  c2_missing_credential_fails_before_network envBase inputBase rfl
    (Or.inl rfl) (Or.inl rfl)

/-! ### C8: waitForCompletion false short-circuits -/

/-- C8: with a usable credential, a successful dispatch-trigger call and
`waitForCompletion = false`, the handler returns successfully with neither
conclusion nor outputs set, after exactly one dispatch-trigger call and
zero list-runs, get-run, list-artifacts or download-artifact calls. -/
theorem c8_no_wait_single_dispatch_call (env : Env) (input : Input) (t : String)
    (htok : resolveToken input.token env.githubToken env.ghToken = some t)
    (ht : t ≠ "")
    (hdisp : env.dispatch = .ok ())
    (hwait : input.waitForCompletion = false) :
    (handler env input).2 = .ok ⟨none, none⟩ ∧
    (handler env input).1.countP isDispatchCall = 1 ∧
    (handler env input).1.countP isListRunsCall = 0 ∧
    (handler env input).1.countP isGetRunCall = 0 ∧
    (handler env input).1.countP isListArtifactsCall = 0 ∧
    (handler env input).1.countP isDownloadCall = 0 := by
  have ht' : (t == "") = false := by simpa using ht
  simp [handler, htok, hdisp, hwait, strFalsy, ht', List.countP_cons,
    isDispatchCall, isListRunsCall, isGetRunCall, isListArtifactsCall,
    isDownloadCall]

/-- Witness for C8 at a concrete environment and input. -/
theorem c8_no_wait_single_dispatch_call_witness :
    (handler envBase { inputBase with token := some "tkn" }).2 = .ok ⟨none, none⟩ ∧
    (handler envBase { inputBase with token := some "tkn" }).1.countP isDispatchCall = 1 ∧
    (handler envBase { inputBase with token := some "tkn" }).1.countP isListRunsCall = 0 ∧
    (handler envBase { inputBase with token := some "tkn" }).1.countP isGetRunCall = 0 ∧
    (handler envBase { inputBase with token := some "tkn" }).1.countP isListArtifactsCall = 0 ∧
    (handler envBase { inputBase with token := some "tkn" }).1.countP isDownloadCall = 0 :=
  c8_no_wait_single_dispatch_call envBase { inputBase with token := some "tkn" }
    "tkn" rfl (by decide) rfl rfl

/-! ### C4: run discovery exhausts 12 attempts -/

/-- C4: with a usable credential, a successful dispatch call and
`waitForCompletion = true`, if no attempt's run listing contains a run
whose head ref matches the requested ref, the handler fails with
`RunNotFoundError` after exactly 12 list-runs calls, each requesting
`per_page = 5`, with a 5000 ms sleep between attempts and no further
network calls afterwards — the error is the handler's final answer. -/
theorem c4_run_not_found_after_12_list_calls (env : Env) (input : Input)
    (t : String)
    (htok : resolveToken input.token env.githubToken env.ghToken = some t)
    (ht : t ≠ "")
    (hdisp : env.dispatch = .ok ())
    (hwait : input.waitForCompletion = true)
    (hmiss : ∀ j, j < 12 → ∃ runs, env.listRuns j = .ok runs ∧
      ∀ r ∈ runs, r.head_branch ≠ some input.branchOrTagName) :
    (handler env input).2 = .error .runNotFound ∧
    (handler env input).1.countP isListRunsCall = 12 ∧
    (handler env input).1.countP isGetRunCall = 0 ∧
    (handler env input).1.countP isListArtifactsCall = 0 ∧
    (handler env input).1.countP isDownloadCall = 0 ∧
    (handler env input).1.countP isSleep = 12 ∧
    (∀ n, Event.listRunsCall n ∈ (handler env input).1 → n = 5) ∧
    (∀ ms, Event.sleep ms ∈ (handler env input).1 → ms = 5000) := by
  have ht' : (t == "") = false := by simpa using ht
  obtain ⟨dtr, hd, h1, h2, h3, h4, h5, h6, h7⟩ :=
    discoverLoop_exhaust env input.branchOrTagName 12 0
      (fun j hj1 hj2 => by
        obtain ⟨runs, hok, hnb⟩ := hmiss j (by omega)
        exact ⟨runs, hok, selectRun_eq_none _ _
          (fun r hr => hnb r (List.mem_of_mem_take hr))⟩)
  have hh : handler env input =
      (Event.logInfo "Dispatching GitHub workflow" :: Event.dispatchCall t ::
        Event.logInfo "Workflow dispatched successfully" ::
        Event.logInfo "Waiting for workflow run to be created..." :: dtr,
        .error .runNotFound) := by
    simp [handler, htok, strFalsy, ht', hdisp, hwait, hd]
  rw [hh]
  refine ⟨rfl, ?_, ?_, ?_, ?_, ?_, ?_, ?_⟩
  · simp [List.countP_cons, isListRunsCall, h1]
  · simp [List.countP_cons, isGetRunCall, h2]
  · simp [List.countP_cons, isListArtifactsCall, h3]
  · simp [List.countP_cons, isDownloadCall, h4]
  · simp [List.countP_cons, isSleep, h5]
  · intro n hn
    simp only [List.mem_cons] at hn
    rcases hn with h | h | h | h | h
    · cases h
    · cases h
    · cases h
    · cases h
    · exact h6 n h
  · intro ms hms
    simp only [List.mem_cons] at hms
    rcases hms with h | h | h | h | h
    · cases h
    · cases h
    · cases h
    · cases h
    · exact h7 ms h

/-- Witness for C4: a concrete environment where the server never reports
a run on the requested ref. -/
theorem c4_run_not_found_after_12_list_calls_witness :
    (handler { envBase with listRuns := fun _ => .ok [] }
        { inputBase with token := some "tkn", waitForCompletion := true }).2 =
      .error .runNotFound ∧
    (handler { envBase with listRuns := fun _ => .ok [] }
        { inputBase with token := some "tkn", waitForCompletion := true }).1.countP
      isListRunsCall = 12 ∧
    (handler { envBase with listRuns := fun _ => .ok [] }
        { inputBase with token := some "tkn", waitForCompletion := true }).1.countP
      isGetRunCall = 0 ∧
    (handler { envBase with listRuns := fun _ => .ok [] }
        { inputBase with token := some "tkn", waitForCompletion := true }).1.countP
      isListArtifactsCall = 0 ∧
    (handler { envBase with listRuns := fun _ => .ok [] }
        { inputBase with token := some "tkn", waitForCompletion := true }).1.countP
      isDownloadCall = 0 ∧
    (handler { envBase with listRuns := fun _ => .ok [] }
        { inputBase with token := some "tkn", waitForCompletion := true }).1.countP
      isSleep = 12 ∧
    (∀ n, Event.listRunsCall n ∈ (handler { envBase with listRuns := fun _ => .ok [] }
        { inputBase with token := some "tkn", waitForCompletion := true }).1 → n = 5) ∧
    (∀ ms, Event.sleep ms ∈ (handler { envBase with listRuns := fun _ => .ok [] }
        { inputBase with token := some "tkn", waitForCompletion := true }).1 → ms = 5000) :=
  c4_run_not_found_after_12_list_calls
    { envBase with listRuns := fun _ => .ok [] }
    { inputBase with token := some "tkn", waitForCompletion := true }
    "tkn" rfl (by decide) rfl rfl
    (fun j _ => ⟨[], rfl, by intro r hr; cases hr⟩)

/-! ### C7: completion polling exhausts 60 attempts -/

/-- A run that never completes, used by concrete test environments. -/
def runInProg : WorkflowRun :=
  ⟨700, some "main", 1000, "in_progress", none⟩

/-- Environment for the C7 witness: the run is discovered at once but
every status poll reports `in_progress`. -/
def env7 : Env :=
  { envBase with getRun := fun _ _ => .ok runInProg }

/-- Input used by witnesses that wait for completion. -/
def inputWait : Input :=
  { inputBase with token := some "tkn", waitForCompletion := true }

/-- C7: with a usable credential, a successful dispatch call,
`waitForCompletion = true` and a discovered run, if every status poll
reports a non-completed status, the handler fails with
`DispatchTimeoutError` after exactly 60 get-run calls, each non-final
attempt separated by a fixed 5000 ms sleep. -/
theorem c7_timeout_after_60_get_calls (env : Env) (input : Input) (t : String)
    (dtr : List Event) (run : WorkflowRun)
    (htok : resolveToken input.token env.githubToken env.ghToken = some t)
    (ht : t ≠ "")
    (hdisp : env.dispatch = .ok ())
    (hwait : input.waitForCompletion = true)
    (hdisc : discoverLoop env input.branchOrTagName 12 0 = (dtr, .ok (some run)))
    (hpoll : ∀ j, j < 60 →
      ∃ r, env.getRun run.id j = .ok r ∧ r.status ≠ "completed") :
    (handler env input).2 = .error .dispatchTimeout ∧
    (handler env input).1.countP isGetRunCall = 60 ∧
    ∃ ptr, pollLoop env run.id 60 0 = (ptr, .ok none) ∧
      ptr.countP isGetRunCall = 60 ∧ ptr.countP isSleep = 60 ∧
      (∀ ms, Event.sleep ms ∈ ptr → ms = 5000) := by
  have ht' : (t == "") = false := by simpa using ht
  obtain ⟨ptr, hp, p1, p2, p3, p4⟩ :=
    pollLoop_exhaust env run.id 60 0 (fun j _ hj => hpoll j (by omega))
  obtain ⟨d1, _, _⟩ := discoverLoop_fst_counts env input.branchOrTagName 12 0
  rw [hdisc] at d1
  refine ⟨?_, ?_, ptr, hp, p1, p3, p4⟩
  · simp [handler, htok, strFalsy, ht', hdisp, hwait, hdisc, hp]
  · simp [handler, htok, strFalsy, ht', hdisp, hwait, hdisc, hp,
      List.countP_append, List.countP_cons, isGetRunCall, d1, p1]

/-- Witness for C7 at a concrete environment and input. -/
theorem c7_timeout_after_60_get_calls_witness :
    (handler env7 inputWait).2 = .error .dispatchTimeout ∧
    (handler env7 inputWait).1.countP isGetRunCall = 60 ∧
    ∃ ptr, pollLoop env7 run0.id 60 0 = (ptr, .ok none) ∧
      ptr.countP isGetRunCall = 60 ∧ ptr.countP isSleep = 60 ∧
      (∀ ms, Event.sleep ms ∈ ptr → ms = 5000) :=
  c7_timeout_after_60_get_calls env7 inputWait "tkn" [Event.listRunsCall 5] run0
    rfl (by decide) rfl rfl
    (by simp [discoverLoop, selectRun, env7, envBase, inputWait, inputBase, run0])
    (fun j _ => ⟨runInProg, rfl, by decide⟩)

/-! ### C6: completion observed at attempt k stops polling -/

/-- C6: with a usable credential, a successful dispatch call,
`waitForCompletion = true` and a discovered run, if polls 1 … k−1 report a
non-completed status and poll k (k ≤ 60) reports completed, then exactly k
get-run calls are made in the whole invocation, and the poll trace holds
exactly k get-run calls and k−1 sleeps — nothing is polled and no delay is
taken after the completed status is observed, the only further sleeps of
the invocation being those of run discovery (none). -/
theorem c6_completion_at_attempt_k_stops_polling (env : Env) (input : Input)
    (t : String) (dtr : List Event) (run : WorkflowRun) (k : Nat)
    (r : WorkflowRun)
    (htok : resolveToken input.token env.githubToken env.ghToken = some t)
    (ht : t ≠ "")
    (hdisp : env.dispatch = .ok ())
    (hwait : input.waitForCompletion = true)
    (hdisc : discoverLoop env input.branchOrTagName 12 0 = (dtr, .ok (some run)))
    (hk1 : 1 ≤ k) (hk : k ≤ 60)
    (hmiss : ∀ j, j < k - 1 →
      ∃ x, env.getRun run.id j = .ok x ∧ x.status ≠ "completed")
    (hok : env.getRun run.id (k - 1) = .ok r)
    (hst : r.status = "completed") :
    (handler env input).1.countP isGetRunCall = k ∧
    (handler env input).1.countP isSleep = dtr.countP isSleep + (k - 1) ∧
    ∃ ptr, pollLoop env run.id 60 0 = (ptr, .ok (some r)) ∧
      ptr.countP isGetRunCall = k ∧ ptr.countP isSleep = k - 1 := by
  have ht' : (t == "") = false := by simpa using ht
  obtain ⟨ptr, hp, p1, p2, p3⟩ :=
    pollLoop_completes env run.id 60 0 (k - 1) r (by omega)
      (fun j _ hj => hmiss j (by omega))
      (by rw [show 0 + (k - 1) = k - 1 from by omega]; exact hok) hst
  have p1' : ptr.countP isGetRunCall = k := by omega
  obtain ⟨d1, _, _⟩ := discoverLoop_fst_counts env input.branchOrTagName 12 0
  rw [hdisc] at d1
  refine ⟨?_, ?_, ptr, hp, p1', p2⟩
  all_goals {
    rcases hart : input.outputArtifactName with _ | artName
    · simp [handler, htok, strFalsy, ht', hdisp, hwait, hdisc, hp, hart,
        List.countP_append, List.countP_cons, isGetRunCall, isSleep, d1, p1', p2]
    · rcases hap : artifactPhase env artName r.conclusion run.id with ⟨atr, ares⟩
      have ha := artifactPhase_fst_counts env artName r.conclusion run.id
      rw [hap] at ha
      obtain ⟨ha1, _, ha3⟩ := ha
      simp [handler, htok, strFalsy, ht', hdisp, hwait, hdisc, hp, hart, hap,
        List.countP_append, List.countP_cons, isGetRunCall, isSleep,
        d1, p1', p2, ha1, ha3] }

/-- Witness for C6 at a concrete environment (completed on the first poll,
k = 1) and input. -/
theorem c6_completion_at_attempt_k_stops_polling_witness :
    (handler envBase inputWait).1.countP isGetRunCall = 1 ∧
    (handler envBase inputWait).1.countP isSleep =
      List.countP isSleep [Event.listRunsCall 5] + (1 - 1) ∧
    ∃ ptr, pollLoop envBase run0.id 60 0 = (ptr, .ok (some run0)) ∧
      ptr.countP isGetRunCall = 1 ∧ ptr.countP isSleep = 1 - 1 :=
  c6_completion_at_attempt_k_stops_polling envBase inputWait "tkn"
    [Event.listRunsCall 5] run0 1 run0
    rfl (by decide) rfl rfl
    (by simp [discoverLoop, selectRun, envBase, inputWait, inputBase, run0])
    (by decide) (by decide)
    (fun j hj => absurd hj (by omega))
    rfl rfl

/-! ### C5: matching policy of run discovery -/

/-- C5: if discovery attempts before `i` see no run with the requested
head ref and attempt `i` returns a page holding at least one run whose head
ref matches, then discovery stops at attempt `i` (exactly `i + 1` list-runs
calls) and the selected run is a run of that page with matching head ref
whose creation timestamp is greatest among the page's matching runs. -/
theorem c5_selects_latest_matching_run (env : Env) (b : String) (i : Nat)
    (runs : List WorkflowRun)
    (hi : i < 12)
    (hmiss : ∀ j, j < i → ∃ rs, env.listRuns j = .ok rs ∧
      ∀ r ∈ rs, r.head_branch ≠ some b)
    (hok : env.listRuns i = .ok runs)
    (hmatch : ∃ r ∈ runs.take 5, r.head_branch = some b) :
    ∃ tr run, discoverLoop env b 12 0 = (tr, .ok (some run)) ∧
      tr.countP isListRunsCall = i + 1 ∧
      run ∈ runs.take 5 ∧ run.head_branch = some b ∧
      ∀ x ∈ runs.take 5, x.head_branch = some b →
        x.created_at ≤ run.created_at := by
  obtain ⟨r, hr, hb⟩ := hmatch
  obtain ⟨run, hsel⟩ := selectRun_isSome b (runs.take 5) r hr hb
  obtain ⟨tr, htr, hcount, _, _⟩ :=
    discoverLoop_found env b 12 0 i run hi
      (fun j hj1 hj2 => by
        obtain ⟨rs, hrs, hnb⟩ := hmiss j (by omega)
        exact ⟨rs, hrs, selectRun_eq_none _ _
          (fun x hx => hnb x (List.mem_of_mem_take hx))⟩)
      ⟨runs, by rw [show 0 + i = i from by omega]; exact hok, hsel⟩
  obtain ⟨hmem, hbr, hmax⟩ := selectRun_spec b (runs.take 5) run hsel
  exact ⟨tr, run, htr, hcount, hmem, hbr, hmax⟩

/-- Runs used by the C5 witness: both on the requested ref, created at
timestamps 1000 and 2000. -/
def runA : WorkflowRun := ⟨701, some "main", 1000, "completed", some "success"⟩

def runB : WorkflowRun := ⟨702, some "main", 2000, "completed", some "success"⟩

/-- Witness for C5: first attempt returns two matching runs. -/
theorem c5_selects_latest_matching_run_witness :
    ∃ tr run,
      discoverLoop { envBase with listRuns := fun _ => .ok [runA, runB] }
        "main" 12 0 = (tr, .ok (some run)) ∧
      tr.countP isListRunsCall = 0 + 1 ∧
      run ∈ List.take 5 [runA, runB] ∧ run.head_branch = some "main" ∧
      ∀ x ∈ List.take 5 [runA, runB], x.head_branch = some "main" →
        x.created_at ≤ run.created_at :=
  c5_selects_latest_matching_run
    { envBase with listRuns := fun _ => .ok [runA, runB] } "main" 0 [runA, runB]
    (by decide) (fun j hj => absurd hj (by omega)) rfl
    ⟨runB, by simp, rfl⟩

/-! ### C10: per_page = 5 hides matching runs beyond the page -/

/-- C10: every list-runs call requests `per_page = 5`, so if on every
attempt no run among the first five returned has the requested head ref,
the handler fails with `RunNotFoundError` after 12 list-runs calls — even
when a matching run exists in the server's full run list beyond the page. -/
theorem c10_per_page_5_hides_matching_runs (env : Env) (input : Input)
    (t : String)
    (htok : resolveToken input.token env.githubToken env.ghToken = some t)
    (ht : t ≠ "")
    (hdisp : env.dispatch = .ok ())
    (hwait : input.waitForCompletion = true)
    (hmiss : ∀ j, j < 12 → ∃ runs, env.listRuns j = .ok runs ∧
      ∀ r ∈ runs.take 5, r.head_branch ≠ some input.branchOrTagName)
    (hbeyond : ∃ j, j < 12 ∧ ∃ runs r, env.listRuns j = .ok runs ∧
      r ∈ runs ∧ r.head_branch = some input.branchOrTagName) :
    (handler env input).2 = .error .runNotFound ∧
    (handler env input).1.countP isListRunsCall = 12 ∧
    ∀ n, Event.listRunsCall n ∈ (handler env input).1 → n = 5 := by
  have ht' : (t == "") = false := by simpa using ht
  obtain ⟨dtr, hd, h1, _, _, _, _, h6, _⟩ :=
    discoverLoop_exhaust env input.branchOrTagName 12 0
      (fun j hj1 hj2 => by
        obtain ⟨runs, hok, hnb⟩ := hmiss j (by omega)
        exact ⟨runs, hok, selectRun_eq_none _ _ hnb⟩)
  have hh : handler env input =
      (Event.logInfo "Dispatching GitHub workflow" :: Event.dispatchCall t ::
        Event.logInfo "Workflow dispatched successfully" ::
        Event.logInfo "Waiting for workflow run to be created..." :: dtr,
        .error .runNotFound) := by
    simp [handler, htok, strFalsy, ht', hdisp, hwait, hd]
  rw [hh]
  refine ⟨rfl, by simp [List.countP_cons, isListRunsCall, h1], ?_⟩
  intro n hn
  simp only [List.mem_cons] at hn
  rcases hn with h | h | h | h | h
  · cases h
  · cases h
  · cases h
  · cases h
  · exact h6 n h

/-- Server list for the C10 witness: five runs on another ref followed by
a matching run in sixth position, which `per_page = 5` never reaches. -/
def offRef (n : Nat) : WorkflowRun := ⟨n, some "dev", 100 + n, "completed", none⟩

def hiddenServerRuns : List WorkflowRun :=
  [offRef 1, offRef 2, offRef 3, offRef 4, offRef 5, run0]

/-- Witness for C10: the matching run sits in position six of every
response, so discovery fails although it exists. -/
theorem c10_per_page_5_hides_matching_runs_witness :
    (handler { envBase with listRuns := fun _ => .ok hiddenServerRuns }
      inputWait).2 = .error .runNotFound ∧
    (handler { envBase with listRuns := fun _ => .ok hiddenServerRuns }
      inputWait).1.countP isListRunsCall = 12 ∧
    ∀ n, Event.listRunsCall n ∈
      (handler { envBase with listRuns := fun _ => .ok hiddenServerRuns }
        inputWait).1 → n = 5 :=
  c10_per_page_5_hides_matching_runs
    { envBase with listRuns := fun _ => .ok hiddenServerRuns } inputWait "tkn"
    rfl (by decide) rfl rfl
    (fun j _ => ⟨hiddenServerRuns, rfl, by decide⟩)
    ⟨0, by decide, hiddenServerRuns, run0, rfl, by decide, rfl⟩

/-! ### C1: which extraction failures are absorbed -/

/-- Environment for the C1 counterexample: the run completes, the artifact
list holds the requested name, but the download call itself rejects. -/
def env1 : Env :=
  { envBase with listArtifacts := .ok [⟨7, "out"⟩] }

/-- Input requesting the output artifact `out`. -/
def inputArt : Input :=
  { inputWait with outputArtifactName := some "out" }

/-- C1 counterexample: a failure of the archive-download call is NOT
absorbed — the invocation reaches the artifact-extraction phase
(`waitForCompletion = true`, run completed, `outputArtifactName` set, the
requested name present in the artifact list), the download rejects, and
the overall operation fails instead of succeeding. -/
theorem c1_counterexample_download_failure_propagates :
    (handler env1 inputArt).2 = .error (.api "download refused") := by
  simp [handler, env1, envBase, inputArt, inputWait, inputBase, run0,
    resolveToken, strFalsy, discoverLoop, selectRun, pollLoop, artifactPhase]

/-- First .json entry scan: when every entry before `entry` does not end in
`.json`, `entry` does, and its content reads and parses to `j`, the scan
yields `j`. -/
theorem scanEntries_first_json (env : Env) (entry : ZipEntry)
    (post : List ZipEntry) (content : String) (j : Json)
    (hentry : strEndsWith entry.path ".json" = true)
    (hbuf : entry.buffer = .ok content)
    (hparse : env.parseJson content = .ok j) :
    ∀ pre, (∀ e ∈ pre, strEndsWith e.path ".json" = false) →
      scanEntries env (pre ++ entry :: post) = .ok (some j) := by
  intro pre
  induction pre with
  | nil => intro _; simp [scanEntries, hentry, hbuf, hparse]
  | cons f rest ih =>
    intro hpre
    have hf : strEndsWith f.path ".json" = false := hpre f (by simp)
    simp only [List.cons_append, scanEntries, hf, Bool.false_eq_true, if_false]
    exact ih (fun e he => hpre e (by simp [he]))

/-- C1 amended: for every invocation reaching the artifact-extraction
phase, if the network calls of that phase themselves succeed
(list-artifacts, and the download when one happens), then none of the
absorbed conditions — requested artifact name absent from the artifact
list, archive open / entry read / JSON parse throwing, or no truthy JSON
value obtained — fails the operation: it succeeds with the conclusion set,
outputs unset, and a warning logged.  (A rejected download call itself,
by contrast, propagates: see the counterexample.) -/
theorem c1_amended_absorbed_extraction_failures (env : Env) (input : Input)
    (t : String) (dtr ptr : List Event) (run r : WorkflowRun)
    (artName : String) (arts : List Artifact) (c : String)
    (htok : resolveToken input.token env.githubToken env.ghToken = some t)
    (ht : t ≠ "")
    (hdisp : env.dispatch = .ok ())
    (hwait : input.waitForCompletion = true)
    (hdisc : discoverLoop env input.branchOrTagName 12 0 = (dtr, .ok (some run)))
    (hpoll : pollLoop env run.id 60 0 = (ptr, .ok (some r)))
    (hart : input.outputArtifactName = some artName)
    (hconc : r.conclusion = some c)
    (harts : env.listArtifacts = .ok arts)
    (hfail :
      arts.find? (fun a => a.name == artName) = none ∨
      ∃ a zip, arts.find? (fun x => x.name == artName) = some a ∧
        env.downloadArtifact a.id = .ok zip ∧
        ((∃ e, tryExtract env zip = .error e) ∨
         tryExtract env zip = .ok none ∨
         ∃ j, tryExtract env zip = .ok (some j) ∧ j.jsTruthy = false)) :
    (handler env input).2 = .ok ⟨some c, none⟩ ∧
    ∃ msg, Event.logWarn msg ∈ (handler env input).1 := by
  have ht' : (t == "") = false := by simpa using ht
  rcases hfail with hfind | ⟨a, zip, hfind, hdl, hex⟩
  · refine ⟨?_, "Artifact '" ++ artName ++ "' not found", ?_⟩ <;>
      simp [handler, htok, strFalsy, ht', hdisp, hwait, hdisc, hpoll, hart,
        artifactPhase, harts, hfind, hconc]
  · rcases hex with ⟨e, he⟩ | he | ⟨j, hj, htru⟩
    · refine ⟨?_, "Failed to extract or parse output artifact: " ++ e, ?_⟩ <;>
        simp [handler, htok, strFalsy, ht', hdisp, hwait, hdisc, hpoll, hart,
          artifactPhase, harts, hfind, hdl, he, hconc]
    · refine ⟨?_, "No JSON file found inside output artifact ZIP", ?_⟩ <;>
        simp [handler, htok, strFalsy, ht', hdisp, hwait, hdisc, hpoll, hart,
          artifactPhase, harts, hfind, hdl, he, hconc]
    · refine ⟨?_, "No JSON file found inside output artifact ZIP", ?_⟩ <;>
        simp [handler, htok, strFalsy, ht', hdisp, hwait, hdisc, hpoll, hart,
          artifactPhase, harts, hfind, hdl, hj, htru, hconc]

/-- Witness for amended C1: the artifact list does not contain the
requested name; the call still succeeds with outputs unset. -/
theorem c1_amended_absorbed_extraction_failures_witness :
    (handler envBase inputArt).2 = .ok ⟨some "success", none⟩ ∧
    ∃ msg, Event.logWarn msg ∈ (handler envBase inputArt).1 :=
  c1_amended_absorbed_extraction_failures envBase inputArt "tkn"
    [Event.listRunsCall 5] [Event.getRunCall 700] run0 run0 "out" [] "success"
    rfl (by decide) rfl rfl
    (by simp [discoverLoop, selectRun, envBase, inputArt, inputWait, inputBase, run0])
    (by simp [pollLoop, envBase, run0])
    rfl rfl rfl (Or.inl rfl)

/-! ### C9: a falsy parsed JSON value is treated as no JSON found -/

/-- C9: if the first `.json` entry of the archive reads and parses
successfully but to a JavaScript-falsy JSON value, outputs stays unset and
the handler logs the warning that no JSON file was found, although a JSON
entry was present and parsed without error; the operation still succeeds
with the conclusion set. -/
theorem c9_falsy_json_leaves_outputs_unset (env : Env) (input : Input)
    (t : String) (dtr ptr : List Event) (run r : WorkflowRun)
    (artName : String) (arts : List Artifact) (a : Artifact) (zip : String)
    (files pre post : List ZipEntry) (entry : ZipEntry) (content : String)
    (j : Json) (c : String)
    (htok : resolveToken input.token env.githubToken env.ghToken = some t)
    (ht : t ≠ "")
    (hdisp : env.dispatch = .ok ())
    (hwait : input.waitForCompletion = true)
    (hdisc : discoverLoop env input.branchOrTagName 12 0 = (dtr, .ok (some run)))
    (hpoll : pollLoop env run.id 60 0 = (ptr, .ok (some r)))
    (hart : input.outputArtifactName = some artName)
    (hconc : r.conclusion = some c)
    (harts : env.listArtifacts = .ok arts)
    (hfind : arts.find? (fun x => x.name == artName) = some a)
    (hdl : env.downloadArtifact a.id = .ok zip)
    (hopen : env.openZip zip = .ok files)
    (hfiles : files = pre ++ entry :: post)
    (hpre : ∀ e ∈ pre, strEndsWith e.path ".json" = false)
    (hentry : strEndsWith entry.path ".json" = true)
    (hbuf : entry.buffer = .ok content)
    (hparse : env.parseJson content = .ok j)
    (htru : j.jsTruthy = false) :
    (handler env input).2 = .ok ⟨some c, none⟩ ∧
    Event.logWarn "No JSON file found inside output artifact ZIP" ∈
      (handler env input).1 := by
  have ht' : (t == "") = false := by simpa using ht
  have hscan : tryExtract env zip = .ok (some j) := by
    simp only [tryExtract, hopen, hfiles]
    exact scanEntries_first_json env entry post content j hentry hbuf hparse
      pre hpre
  constructor <;>
    simp [handler, htok, strFalsy, ht', hdisp, hwait, hdisc, hpoll, hart,
      artifactPhase, harts, hfind, hdl, hscan, htru, hconc]

/-- Environment for the C9 witness: one artifact whose archive holds a
single entry `result.json` parsing to JSON `null`. -/
def env9 : Env :=
  { envBase with
    listArtifacts := .ok [⟨7, "out"⟩]
    downloadArtifact := fun _ => .ok "zipbytes"
    openZip := fun _ => .ok [⟨"result.json", .ok "null"⟩]
    parseJson := fun _ => .ok .null }

/-- Witness for C9 at a concrete environment and input. -/
theorem c9_falsy_json_leaves_outputs_unset_witness :
    (handler env9 inputArt).2 = .ok ⟨some "success", none⟩ ∧
    Event.logWarn "No JSON file found inside output artifact ZIP" ∈
      (handler env9 inputArt).1 :=
  c9_falsy_json_leaves_outputs_unset env9 inputArt "tkn"
    [Event.listRunsCall 5] [Event.getRunCall 700] run0 run0 "out"
    [⟨7, "out"⟩] ⟨7, "out"⟩ "zipbytes"
    [⟨"result.json", .ok "null"⟩] [] [] ⟨"result.json", .ok "null"⟩
    "null" .null "success"
    rfl (by decide) rfl rfl
    (by simp [discoverLoop, selectRun, env9, envBase, inputArt, inputWait,
      inputBase, run0])
    (by simp [pollLoop, env9, envBase, run0])
    rfl rfl rfl (by simp) rfl rfl rfl
    (fun e he => absurd he (by simp)) (by decide) rfl rfl rfl

/-! ### C3: credential source -/

/-- A variable's value when only non-empty values count. -/
def nonEmptyVar : Option String → Option String
  | some t => if t == "" then none else some t
  | none => none

/-- The credential rule as the spec words it (reference definition for the
refinement claim): the explicit value when given, otherwise the first
non-empty of the two environment variables. -/
def specCredential (provided g1 g2 : Option String) : Option String :=
  match provided with
  | some t => some t
  | none =>
    match nonEmptyVar g1 with
    | some t => some t
    | none => nonEmptyVar g2

/-- Environment for the C3 counterexample: `GITHUB_TOKEN` is set but
empty, `GH_TOKEN` is set and non-empty. -/
def env3 : Env :=
  { envBase with githubToken := some "", ghToken := some "ghtok" }

/-- C3 counterexample: with no explicit token, `GITHUB_TOKEN = ""` and
`GH_TOKEN = "ghtok"`, the spec's first-non-empty rule would use `ghtok`,
but the code's nullish coalescing resolves the empty `GITHUB_TOKEN`, so the
handler fails with `MissingCredentialError` and never dispatches with any
credential. -/
theorem c3_counterexample_empty_github_token_blocks_fallback :
    specCredential none (some "") (some "ghtok") = some "ghtok" ∧
    resolveToken none (some "") (some "ghtok") = some "" ∧
    handler env3 inputBase = ([], .error .missingCredential) :=
  ⟨rfl, rfl, rfl⟩

/-- C3 amended: the credential the dispatch call uses is the explicit
token when given, otherwise the first *defined* (present, even if empty)
of `GITHUB_TOKEN` then `GH_TOKEN`; whenever that resolution yields a
non-empty value `s`, the dispatch-trigger call is made with `s`.  (An
empty resolution instead fails with `MissingCredentialError`.) -/
theorem c3_amended_first_defined_env_var_wins (env : Env) (input : Input)
    (s : String) (hs : s ≠ "")
    (h : resolveToken input.token env.githubToken env.ghToken = some s) :
    (input.token = some s ∨
      (input.token = none ∧ env.githubToken = some s) ∨
      (input.token = none ∧ env.githubToken = none ∧ env.ghToken = some s)) ∧
    Event.dispatchCall s ∈ (handler env input).1 := by
  have ht' : (s == "") = false := by simpa using hs
  constructor
  · unfold resolveToken at h
    rcases htk : input.token with _ | t
    · rw [htk] at h
      rcases hg1 : env.githubToken with _ | g
      · rw [hg1] at h
        exact Or.inr (Or.inr ⟨rfl, rfl, h⟩)
      · rw [hg1] at h
        cases h
        exact Or.inr (Or.inl ⟨rfl, rfl⟩)
    · rw [htk] at h
      cases h
      exact Or.inl rfl
  · simp only [handler, h, strFalsy, ht', Bool.false_eq_true, if_false,
      Option.getD_some]
    rcases hd : env.dispatch with e | u
    · simp [hd]
    · cases hw : input.waitForCompletion
      · simp [hd, hw]
      · rcases hdl : discoverLoop env input.branchOrTagName 12 0 with ⟨dtr, dres⟩
        rcases dres with e | o
        · simp [hd, hw, hdl]
        · rcases o with _ | run
          · simp [hd, hw, hdl]
          · rcases hpl : pollLoop env run.id 60 0 with ⟨ptr, pres⟩
            rcases pres with e | o2
            · simp [hd, hw, hdl, hpl]
            · rcases o2 with _ | r
              · simp [hd, hw, hdl, hpl]
              · rcases hao : input.outputArtifactName with _ | artName
                · simp [hd, hw, hdl, hpl, hao]
                · rcases hap : artifactPhase env artName r.conclusion run.id
                    with ⟨atr, ares⟩
                  simp [hd, hw, hdl, hpl, hao, hap]

/-- Witness for amended C3: only `GH_TOKEN` is set; the dispatch call
carries its value. -/
theorem c3_amended_first_defined_env_var_wins_witness :
    (inputBase.token = some "envtok" ∨
      (inputBase.token = none ∧
        Env.githubToken { envBase with ghToken := some "envtok" } = some "envtok") ∨
      (inputBase.token = none ∧
        Env.githubToken { envBase with ghToken := some "envtok" } = none ∧
        Env.ghToken { envBase with ghToken := some "envtok" } = some "envtok")) ∧
    Event.dispatchCall "envtok" ∈
      (handler { envBase with ghToken := some "envtok" } inputBase).1 :=
  c3_amended_first_defined_env_var_wins { envBase with ghToken := some "envtok" }
    inputBase "envtok" (by decide) rfl

end Dispatch
